import Mathlib

/-!
Shallow embedding of the sf6rs frame-data scraping library (Rust).

Source layout:
* `src/src/character.rs`   — character registry (roster, regex lookup)
* `src/src/framedata.rs`   — main crate: query facade, loader, parser
* `src/framedata/src/lib.rs` (with `loader.rs`) — near-duplicate second crate
  whose `parse_move` differs by an `nth(10)` skip.

The HTML parse tree and CSS-selector queries (the external `scraper` crate)
are modelled by the `Node` inductive and the `Sel` selector language below,
covering exactly the selector features the source uses: tag tests, class
tests, the child combinator `>` and the adjacent-sibling combinator `+`.
An element's match context is its chain of ancestors inside the selected
root together with its preceding element siblings, mirroring how `scraper`
matches selectors against the document tree.  Traversal order is document
(pre-)order, as in `scraper`.
-/

namespace SF6

/-- A node of the parsed HTML document: an element with a tag name, an
attribute list and children, or a text node. Comments are not modelled. -/
inductive Node where
  | element (tag : String) (attrs : List (String × String)) (children : List Node)
  | text (s : String)

/-- Tag name of a node (text nodes have none; they never occur as
selector subjects). -/
def tagOf : Node → String
  | .element t _ _ => t
  | .text _ => ""

/-- Attribute list of a node. -/
def attrsOf : Node → List (String × String)
  | .element _ a _ => a
  | .text _ => []

/-- Children of a node. -/
def childrenOf : Node → List Node
  | .element _ _ cs => cs
  | .text _ => []

/-- Is this node an element? -/
def isElem : Node → Bool
  | .element _ _ _ => true
  | .text _ => false

/-- Split a class attribute value on spaces (scraper splits the `class`
attribute on whitespace to obtain the class list). -/
def splitWords (cur : List Char) : List Char → List (List Char)
  | [] => if cur.isEmpty then [] else [cur.reverse]
  | c :: rest =>
    if c = ' ' then
      if cur.isEmpty then splitWords [] rest else cur.reverse :: splitWords [] rest
    else splitWords (c :: cur) rest

/-- The class list of an element: the `class` attribute split on spaces. -/
def classList (n : Node) : List String :=
  match (attrsOf n).lookup "class" with
  | none => []
  | some v => (splitWords [] v.toList).map (fun cs => String.mk cs)

/-- `is_empty` from the `selectors` crate (the `:empty` check the source
applies to both selected sequences): the element has no child nodes. -/
def is_empty (n : Node) : Bool :=
  (childrenOf n).isEmpty

/-- Serialization of an attribute list as ` key="value"` pairs. -/
def serializeAttrsList : List (String × String) → String
  | [] => ""
  | (k, v) :: rest => " " ++ k ++ "=\"" ++ v ++ "\"" ++ serializeAttrsList rest

mutual

/-- Serialization of a node back to markup, modelling `ElementRef::html`
(outer markup). Entity escaping and void-element forms are not modelled;
they do not affect the `/images/thumb… 2x` extraction. -/
def serializeNode : Node → String
  | .text s => s
  | .element t a cs =>
    "<" ++ t ++ serializeAttrsList a ++ ">" ++ serializeNodes cs ++ "</" ++ t ++ ">"

/-- Serialization of a list of sibling nodes. -/
def serializeNodes : List Node → String
  | [] => ""
  | n :: rest => serializeNode n ++ serializeNodes rest

end

/-- `ElementRef::inner_html`: the serialized markup of the children. -/
def inner_html (n : Node) : String :=
  serializeNodes (childrenOf n)

/-- `ElementRef::html`: the serialized outer markup of the element. -/
def html (n : Node) : String :=
  serializeNode n

/-- `Element::first_element_child` from `scraper`: the first child that is
an element. -/
def first_element_child (n : Node) : Option Node :=
  (childrenOf n).find? isElem

mutual

/-- `get_lowest_child` (framedata.rs lines 278-283 and loader.rs lines
141-146): descend through first-element-child links until an element with
no element children is reached. Defined by structural recursion on the
tree (the source recurses with no depth bound; finiteness of the tree is
what terminates it). `get_lowest_child_eq` below proves the source-shaped
unfolding. -/
def get_lowest_child : Node → Node
  | .text s => .text s
  | .element t a cs => glcList (Node.element t a cs) cs

/-- Helper for `get_lowest_child`: scan the children for the first element
child; descend into it, or return `self` when there is none. -/
def glcList (self : Node) : List Node → Node
  | [] => self
  | n :: rest =>
    match n with
    | .text _ => glcList self rest
    | .element t a cs => get_lowest_child (Node.element t a cs)

end

/-- A simple selector step: an optional tag test plus required classes. -/
structure SimpleSel where
  tag : Option String
  classes : List String

/-- A complex selector: a simple selector, or one attached to the rest by
the child combinator `>` or the adjacent-sibling combinator `+`. -/
inductive Sel where
  | simple (s : SimpleSel)
  | child (rest : Sel) (s : SimpleSel)
  | adjacent (rest : Sel) (s : SimpleSel)

/-- Does a node satisfy a simple selector (tag test and class tests)? -/
def simpleMatches (ss : SimpleSel) (n : Node) : Bool :=
  (match ss.tag with
   | none => true
   | some t => tagOf n == t)
  && ss.classes.all (fun c => (classList n).contains c)

/-- A match frame: an element together with its preceding element
siblings, nearest first. A path is the subject's frame followed by the
frames of its ancestors, nearest first. -/
abbrev Frame := Node × List Node

/-- Selector matching against a path of frames (subject first, then
ancestors). `child` steps to the parent frame; `adjacent` steps to the
nearest preceding element sibling, which shares the ancestor frames. -/
def matchPath : Sel → List Frame → Bool
  | _, [] => false
  | .simple ss, f :: _ => simpleMatches ss f.1
  | .child rest ss, f :: fs => simpleMatches ss f.1 && matchPath rest fs
  | .adjacent rest ss, (n, prevs) :: fs =>
    simpleMatches ss n &&
      (match prevs with
       | [] => false
       | p :: ps => matchPath rest ((p, ps) :: fs))

mutual

/-- Collect, in document order, the selector matches among a node and its
descendants. `frames` are the ancestor frames, `prevs` the preceding
element siblings of this node. -/
def selNode (sel : Sel) (frames : List Frame) (prevs : List Node) : Node → List Node
  | .text _ => []
  | .element t a cs =>
    let e := Node.element t a cs
    (if matchPath sel ((e, prevs) :: frames) then [e] else [])
      ++ selNodes sel ((e, prevs) :: frames) [] cs

/-- Collect selector matches in a list of siblings, accumulating the
preceding element siblings. -/
def selNodes (sel : Sel) (frames : List Frame) (prevs : List Node) : List Node → List Node
  | [] => []
  | n :: rest =>
    selNode sel frames prevs n
      ++ selNodes sel frames (if isElem n then n :: prevs else prevs) rest

end

/-- `root.select(sel)` / `Html::select`: all descendant elements of `root`
matching `sel`, in document order. The root itself is not a candidate
(as for `ElementRef::select`); ancestors above the root are not modelled. -/
def select (sel : Sel) (root : Node) : List Node :=
  selNodes sel [(root, [])] [] (childrenOf root)

/-- The `Move` record (framedata.rs lines 72-116; the second crate's copy
in `framedata/src/lib.rs` lines 5-44 has the same fields in the same
order): identifier, input, name, image link, and 33 statistic fields, all
strings. -/
structure Move where
  identifier : String
  input : String
  name : String
  image_link : String
  damage : String
  chip_damage : String
  damage_scaling : String
  guard : String
  cancel : String
  hitconfirm_window : String
  startup : String
  active : String
  recovery : String
  total : String
  hitstun : String
  blockstun : String
  drive_damage_block : String
  drive_damage_hit : String
  drive_gain : String
  super_gain_hit : String
  super_gain_block : String
  projectile_speed : String
  invuln : String
  armor : String
  airborne : String
  juggle_start : String
  juggle_increase : String
  juggle_limit : String
  perfect_parry_advantage : String
  after_dr_hit : String
  after_dr_block : String
  dr_cancel_hit : String
  dr_cancel_block : String
  punish_advantage : String
  hit_advantage : String
  block_advantage : String
  notes : String
deriving DecidableEq

/-- The 33 statistic fields of a `Move`, in declaration (schema) order —
the fixed positional schema of spec section 3. -/
def statFields (m : Move) : List String :=
  [m.damage, m.chip_damage, m.damage_scaling, m.guard, m.cancel,
   m.hitconfirm_window, m.startup, m.active, m.recovery, m.total,
   m.hitstun, m.blockstun, m.drive_damage_block, m.drive_damage_hit,
   m.drive_gain, m.super_gain_hit, m.super_gain_block, m.projectile_speed,
   m.invuln, m.armor, m.airborne, m.juggle_start, m.juggle_increase,
   m.juggle_limit, m.perfect_parry_advantage, m.after_dr_hit,
   m.after_dr_block, m.dr_cancel_hit, m.dr_cancel_block,
   m.punish_advantage, m.hit_advantage, m.block_advantage, m.notes]

/-- Shorthand for a tag-only simple selector. -/
def tagSel (t : String) : SimpleSel := ⟨some t, []⟩

/-- Selector `div > div > section.section-collapsible > h5 > span`
(MOVE_IDENTIFIER_SELECTOR, framedata.rs line 153 / loader.rs line 19). -/
def MOVE_IDENTIFIER_SELECTOR : Sel :=
  .child (.child (.child (.child (.simple (tagSel "div")) (tagSel "div"))
    ⟨some "section", ["section-collapsible"]⟩) (tagSel "h5")) (tagSel "span")

/-- Selector `div > div > section.section-collapsible > h5 + table.wikitable`
(MOVE_BLOCK_SELECTOR, framedata.rs line 161 / loader.rs line 26). -/
def MOVE_BLOCK_SELECTOR : Sel :=
  .adjacent (.child (.child (.child (.simple (tagSel "div")) (tagSel "div"))
    ⟨some "section", ["section-collapsible"]⟩) (tagSel "h5"))
    ⟨some "table", ["wikitable"]⟩

/-- Selector `tr > th > div > p > span` (INPUT_SELECTOR). -/
def INPUT_SELECTOR : Sel :=
  .child (.child (.child (.child (.simple (tagSel "tr")) (tagSel "th"))
    (tagSel "div")) (tagSel "p")) (tagSel "span")

/-- Selector `tr > th > div > div` (NAME_SELECTOR). -/
def NAME_SELECTOR : Sel :=
  .child (.child (.child (.simple (tagSel "tr")) (tagSel "th"))
    (tagSel "div")) (tagSel "div")

/-- Selector `tr > th > a` (HITBOX_IMAGE_ELEMENT_SELECTOR). -/
def HITBOX_IMAGE_ELEMENT_SELECTOR : Sel :=
  .child (.child (.simple (tagSel "tr")) (tagSel "th")) (tagSel "a")

/-- Selector `tr > td` (DATA_ROW_SELECTOR). -/
def DATA_ROW_SELECTOR : Sel :=
  .child (.simple (tagSel "tr")) (tagSel "td")

/-- The hardcoded default placeholder image URL (DEFAULT_IMAGE). -/
def DEFAULT_IMAGE : String :=
  "https://wiki.supercombo.gg/images/thumb/4/42/SF6_Logo.png/300px-SF6_Logo.png"

/-- Whitespace as in the regex class backslash-s of the `regex` crate
(restricted to the ASCII whitespace that can occur in markup). -/
def isSpaceChar (c : Char) : Bool :=
  c == ' ' || c == '\t' || c == '\n' || c == '\r'

/-- The literal head of the HITBOX_IMAGE_URL_REGEX capture group. -/
def thumbPat : List Char := "/images/thumb".toList

/-- Does the first list start with the second? -/
def listStarts : List Char → List Char → Bool
  | [], _ => true
  | _ :: _, [] => false
  | p :: ps, c :: cs => p == c && listStarts ps cs

/-- One anchored attempt of the regex `(/images/thumb\S+) 2x` at the head
of `cs`: the literal `/images/thumb`, then a maximal nonempty run of
non-whitespace (greedy, and no shorter run can be followed by the literal
space), then the literal ` 2x`. Returns capture group 1. -/
def matchThumbAt (cs : List Char) : Option (List Char) :=
  if listStarts thumbPat cs then
    let rest := cs.drop thumbPat.length
    let run := rest.takeWhile (fun c => !isSpaceChar c)
    let after := rest.dropWhile (fun c => !isSpaceChar c)
    if run.isEmpty then none
    else if listStarts " 2x".toList after then some (thumbPat ++ run)
    else none
  else none

/-- Leftmost match of `(/images/thumb\S+) 2x` in the text: the first
start position at which `matchThumbAt` succeeds (capture group 1). -/
def findThumbCapture : List Char → Option (List Char)
  | [] => none
  | c :: rest =>
    match matchThumbAt (c :: rest) with
    | some cap => some cap
    | none => findThumbCapture rest

/-- `hitbox_image_matcher` (framedata.rs lines 285-290 / loader.rs lines
148-153): capture group 1 of HITBOX_IMAGE_URL_REGEX applied to the raw
markup, prefixed with `https://wiki.supercombo.gg/`. -/
def hitbox_image_matcher (element : String) : Option String :=
  (findThumbCapture element.toList).map
    (fun m => "https://wiki.supercombo.gg/" ++ String.mk m)

/-- The ordered data-cell values of a block: every `tr > td` match, each
unwrapped by `get_lowest_child`, then its inner markup (framedata.rs
lines 197-201 / loader.rs lines 60-64). -/
def dataCells (block : Node) : List String :=
  ((select DATA_ROW_SELECTOR block).map (fun e => get_lowest_child e)).map
    (fun e => inner_html e)

/-- `parse_move` (framedata.rs lines 182-276). The iterator `data` is
consumed by successive `next()` calls, so the Nth call yields element N
of `dataCells`; a missing element defaults to `"-"`. The first `select`
match is `next()`, i.e. the head. Absence of the input or name cell
aborts the parse (`?`). -/
def parse_move (identifier : Node) (block : Node) : Option Move :=
  let identifierS := inner_html identifier
  match ((select INPUT_SELECTOR block).head?).map (fun e => inner_html e) with
  | none => none
  | some input =>
    match ((select NAME_SELECTOR block).head?).map (fun e => inner_html e) with
    | none => none
    | some name =>
      let sel := (select HITBOX_IMAGE_ELEMENT_SELECTOR block).map (fun e => html e)
      let image := (sel.get? 0).bind hitbox_image_matcher
      let hitbox := (sel.get? 1).bind hitbox_image_matcher
      let hitbox_image_url := (hitbox.or image).getD DEFAULT_IMAGE
      let data := dataCells block
      some
        { identifier := identifierS
          input := input
          name := name
          image_link := hitbox_image_url
          damage := (data.get? 0).getD "-"
          chip_damage := (data.get? 1).getD "-"
          damage_scaling := (data.get? 2).getD "-"
          guard := (data.get? 3).getD "-"
          cancel := (data.get? 4).getD "-"
          hitconfirm_window := (data.get? 5).getD "-"
          startup := (data.get? 6).getD "-"
          active := (data.get? 7).getD "-"
          recovery := (data.get? 8).getD "-"
          total := (data.get? 9).getD "-"
          hitstun := (data.get? 10).getD "-"
          blockstun := (data.get? 11).getD "-"
          drive_damage_block := (data.get? 12).getD "-"
          drive_damage_hit := (data.get? 13).getD "-"
          drive_gain := (data.get? 14).getD "-"
          super_gain_hit := (data.get? 15).getD "-"
          super_gain_block := (data.get? 16).getD "-"
          projectile_speed := (data.get? 17).getD "-"
          invuln := (data.get? 18).getD "-"
          armor := (data.get? 19).getD "-"
          airborne := (data.get? 20).getD "-"
          juggle_start := (data.get? 21).getD "-"
          juggle_increase := (data.get? 22).getD "-"
          juggle_limit := (data.get? 23).getD "-"
          perfect_parry_advantage := (data.get? 24).getD "-"
          after_dr_hit := (data.get? 25).getD "-"
          after_dr_block := (data.get? 26).getD "-"
          dr_cancel_hit := (data.get? 27).getD "-"
          dr_cancel_block := (data.get? 28).getD "-"
          punish_advantage := (data.get? 29).getD "-"
          hit_advantage := (data.get? 30).getD "-"
          block_advantage := (data.get? 31).getD "-"
          notes := (data.get? 32).getD "-" }

namespace loader

/-- `parse_move` of the second crate (loader.rs lines 45-139). Identical
to the main crate's version except line 95: after thirty `next()` calls
(elements 0-29), `hit_advantage` is taken with `data.nth(10)`, which
skips ten elements and yields element 40; `block_advantage` and `notes`
then get elements 41 and 42. -/
def parse_move (identifier : Node) (block : Node) : Option Move :=
  let identifierS := inner_html identifier
  match ((select INPUT_SELECTOR block).head?).map (fun e => inner_html e) with
  | none => none
  | some input =>
    match ((select NAME_SELECTOR block).head?).map (fun e => inner_html e) with
    | none => none
    | some name =>
      let sel := (select HITBOX_IMAGE_ELEMENT_SELECTOR block).map (fun e => html e)
      let image := (sel.get? 0).bind hitbox_image_matcher
      let hitbox := (sel.get? 1).bind hitbox_image_matcher
      let hitbox_image_url := (hitbox.or image).getD DEFAULT_IMAGE
      let data := dataCells block
      some
        { identifier := identifierS
          input := input
          name := name
          image_link := hitbox_image_url
          damage := (data.get? 0).getD "-"
          chip_damage := (data.get? 1).getD "-"
          damage_scaling := (data.get? 2).getD "-"
          guard := (data.get? 3).getD "-"
          cancel := (data.get? 4).getD "-"
          hitconfirm_window := (data.get? 5).getD "-"
          startup := (data.get? 6).getD "-"
          active := (data.get? 7).getD "-"
          recovery := (data.get? 8).getD "-"
          total := (data.get? 9).getD "-"
          hitstun := (data.get? 10).getD "-"
          blockstun := (data.get? 11).getD "-"
          drive_damage_block := (data.get? 12).getD "-"
          drive_damage_hit := (data.get? 13).getD "-"
          drive_gain := (data.get? 14).getD "-"
          super_gain_hit := (data.get? 15).getD "-"
          super_gain_block := (data.get? 16).getD "-"
          projectile_speed := (data.get? 17).getD "-"
          invuln := (data.get? 18).getD "-"
          armor := (data.get? 19).getD "-"
          airborne := (data.get? 20).getD "-"
          juggle_start := (data.get? 21).getD "-"
          juggle_increase := (data.get? 22).getD "-"
          juggle_limit := (data.get? 23).getD "-"
          perfect_parry_advantage := (data.get? 24).getD "-"
          after_dr_hit := (data.get? 25).getD "-"
          after_dr_block := (data.get? 26).getD "-"
          dr_cancel_hit := (data.get? 27).getD "-"
          dr_cancel_block := (data.get? 28).getD "-"
          punish_advantage := (data.get? 29).getD "-"
          hit_advantage := (data.get? 40).getD "-"
          block_advantage := (data.get? 41).getD "-"
          notes := (data.get? 42).getD "-" }

end loader

/-- Abstract syntax of the compiled regular expressions of the character
registry (character.rs): literals, concatenation, alternation `|`, the
`?` quantifier, and the anchors `^` (`bol`) and `$` (`eol`) that
`CharacterId::regex` splices around the roster pattern. The anchors are
explicit constructors because alternation binds weaker than they do:
`^a|b$` parses as `(^a)|(b$)`, not `^(a|b)$`. -/
inductive RE where
  | eps
  | lit (c : Char)
  | seq (a b : RE)
  | alt (a b : RE)
  | opt (a : RE)
  | bol
  | eol
deriving DecidableEq

/-- Concatenation of character literals. -/
def rchars : List Char → RE
  | [] => .eps
  | c :: rest => .seq (.lit c) (rchars rest)

/-- The regex denoting a literal string. -/
def rstr (s : String) : RE := rchars s.toList

/-- `^pat$` for a pattern with no top-level alternation: both anchors
attach to the whole pattern. -/
def anchored (p : RE) : RE := .seq .bol (.seq p .eol)

/-- All spans of `full` matched by the regex starting at the suffix `s`
of `full`, each span given by the suffix where it ends. `bol` matches the
empty span only at the very start of the input (suffix = whole input),
`eol` only at the very end (suffix empty); `seq` chains the possible
ends (equivalent to backtracking), `alt` and `opt` take both branches. -/
def matchSufs : RE → List Char → List Char → List (List Char)
  | .eps, _, s => [s]
  | .lit c, _, s =>
    match s with
    | [] => []
    | c' :: rest => if c' == c then [rest] else []
  | .seq a b, full, s => (matchSufs a full s).flatMap (fun s' => matchSufs b full s')
  | .alt a b, full, s => matchSufs a full s ++ matchSufs b full s
  | .opt a, full, s => s :: matchSufs a full s
  | .bol, full, s => if s.length == full.length then [s] else []
  | .eol, _, s => if s.isEmpty then [s] else []

/-- Unanchored search: does the regex match starting at some suffix of
the input? This is `Regex::is_match`, which looks for a match anywhere;
anchoring comes only from `bol`/`eol` markers inside the regex. -/
def search (r : RE) (full : List Char) : List Char → Bool
  | [] => !(matchSufs r full []).isEmpty
  | c :: rest => !(matchSufs r full (c :: rest)).isEmpty || search r full rest

/-- `CharacterId::regex(…).is_match(input)` (character.rs lines 71-73):
the compiled regex is `(?i)^{pattern}$` and `is_match` searches for a
match anywhere in the input. The roster patterns are lowercase ASCII, so
`(?i)` is modelled by ASCII-lowercasing the input. -/
def reIsMatch (r : RE) (input : String) : Bool :=
  search r (input.toList.map Char.toLower) (input.toList.map Char.toLower)

/-- `CharacterId` (character.rs lines 50-57): machine key, frame-data URL
segment, gif URL segment, the regex source string, and (in place of the
lazily compiled `Regex`) the abstract syntax of the compiled regex
`(?i)^{regex_str}$`, parsed with the regex crate's precedence (anchors
bind tighter than `|`). -/
structure CharacterId where
  id : String
  frame_data_id : String
  gif_data_id : String
  regex_str : String
  regex : RE
deriving DecidableEq

/-- Roster entry `RYU` (pattern `ryu`). -/
def RYU : CharacterId := ⟨"ryu", "Ryu", "ryu", "ryu", anchored (rstr "ryu")⟩

/-- Roster entry `LUKE` (pattern `luke`). -/
def LUKE : CharacterId := ⟨"luke", "Luke", "luke", "luke", anchored (rstr "luke")⟩

/-- Roster entry `JAMIE` (pattern `jamie`). -/
def JAMIE : CharacterId := ⟨"jamie", "Jamie", "jamie", "jamie", anchored (rstr "jamie")⟩

/-- Roster entry `CHUNLI` (pattern `chun(-?li)?`). -/
def CHUNLI : CharacterId :=
  ⟨"chunli", "Chun-Li", "chunli", "chun(-?li)?",
   anchored (.seq (rstr "chun") (.opt (.seq (.opt (.lit '-')) (rstr "li"))))⟩

/-- Roster entry `GUILE` (pattern `guile`). -/
def GUILE : CharacterId := ⟨"guile", "Guile", "guile", "guile", anchored (rstr "guile")⟩

/-- Roster entry `KIMBERLY` (pattern `kim(berly)?`). -/
def KIMBERLY : CharacterId :=
  ⟨"kimberly", "Kimberly", "kimberly", "kim(berly)?",
   anchored (.seq (rstr "kim") (.opt (rstr "berly")))⟩

/-- Roster entry `JURI` (pattern `juri`). -/
def JURI : CharacterId := ⟨"juri", "Juri", "juri", "juri", anchored (rstr "juri")⟩

/-- Roster entry `KEN` (pattern `ken`). -/
def KEN : CharacterId := ⟨"ken", "Ken", "ken", "ken", anchored (rstr "ken")⟩

/-- Roster entry `BLANKA` (pattern `blanka`). -/
def BLANKA : CharacterId := ⟨"blanka", "Blanka", "blanka", "blanka", anchored (rstr "blanka")⟩

/-- Roster entry `DHALSIM` (pattern `(dh?al)?sim`). -/
def DHALSIM : CharacterId :=
  ⟨"dhalsim", "Dhalsim", "dhalsim", "(dh?al)?sim",
   anchored (.seq (.opt (.seq (.lit 'd') (.seq (.opt (.lit 'h')) (rstr "al")))) (rstr "sim"))⟩

/-- Roster entry `EHONDA` (pattern `e?honda`). -/
def EHONDA : CharacterId :=
  ⟨"ehonda", "E.Honda", "ehonda", "e?honda",
   anchored (.seq (.opt (.lit 'e')) (rstr "honda"))⟩

/-- Roster entry `DEEJAY` (pattern `d(ee)?j(ay)?`). -/
def DEEJAY : CharacterId :=
  ⟨"deejay", "Dee_Jay", "deejay", "d(ee)?j(ay)?",
   anchored (.seq (.lit 'd') (.seq (.opt (rstr "ee")) (.seq (.lit 'j') (.opt (rstr "ay")))))⟩

/-- Roster entry `MANON` (pattern `manon`). -/
def MANON : CharacterId := ⟨"manon", "Manon", "manon", "manon", anchored (rstr "manon")⟩

/-- Roster entry `MARISA` (pattern `marisa`). -/
def MARISA : CharacterId := ⟨"marisa", "Marisa", "marisa", "marisa", anchored (rstr "marisa")⟩

/-- Roster entry `JP` (pattern `jp`). -/
def JP : CharacterId := ⟨"jp", "JP", "jp", "jp", anchored (rstr "jp")⟩

/-- Roster entry `ZANGIEF` (pattern `(zan)?gief`). -/
def ZANGIEF : CharacterId :=
  ⟨"zangief", "Zangief", "zangief", "(zan)?gief",
   anchored (.seq (.opt (rstr "zan")) (rstr "gief"))⟩

/-- Roster entry `LILY` (pattern `lily`). -/
def LILY : CharacterId := ⟨"lily", "Lily", "lily", "lily", anchored (rstr "lily")⟩

/-- Roster entry `CAMMY` (pattern `cammy`). -/
def CAMMY : CharacterId := ⟨"cammy", "Cammy", "cammy", "cammy", anchored (rstr "cammy")⟩

/-- Roster entry `RASHID` (pattern `rashid`). -/
def RASHID : CharacterId := ⟨"rashid", "Rashid", "rashid", "rashid", anchored (rstr "rashid")⟩

/-- Roster entry `AKI` (pattern `a\.?k\.?i\.?`; the dots are escaped, so
they are literal dots). -/
def AKI : CharacterId :=
  ⟨"aki", "A.K.I.", "aki", "a\\.?k\\.?i\\.?",
   anchored (.seq (.lit 'a') (.seq (.opt (.lit '.')) (.seq (.lit 'k')
     (.seq (.opt (.lit '.')) (.seq (.lit 'i') (.opt (.lit '.')))))))⟩

/-- Roster entry `ED` (pattern `ed`). -/
def ED : CharacterId := ⟨"ed", "Ed", "ed", "ed", anchored (rstr "ed")⟩

/-- Roster entry `AKUMA` (pattern `akuma|gouki`). The compiled regex is
`(?i)^akuma|gouki$`; since `|` binds weaker than the anchors, it parses
as `(^akuma)|(gouki$)` — NOT as `^(akuma|gouki)$`: the whole match is
not anchored at both ends for this one roster entry. -/
def AKUMA : CharacterId :=
  ⟨"akuma", "Akuma", "akuma", "akuma|gouki",
   .alt (.seq .bol (rstr "akuma")) (.seq (rstr "gouki") .eol)⟩

/-- Roster entry `MBISON` (pattern `bison`). -/
def MBISON : CharacterId := ⟨"mbison", "M.Bison", "mbison", "bison", anchored (rstr "bison")⟩

/-- The fixed roster `CHARACTERS` (character.rs lines 34-37), in source
order. -/
def CHARACTERS : List CharacterId :=
  [RYU, LUKE, JAMIE, CHUNLI, GUILE, KIMBERLY, JURI, KEN, BLANKA, DHALSIM,
   EHONDA, DEEJAY, MANON, MARISA, JP, ZANGIEF, LILY, CAMMY, RASHID, AKI,
   ED, AKUMA, MBISON]

/-- `get_character_by_regex` (character.rs lines 40-42): the first roster
entry whose anchored case-insensitive regex matches the input. -/
def get_character_by_regex (input : String) : Option CharacterId :=
  CHARACTERS.find? (fun c => reIsMatch c.regex input)

/-- `get_character_by_id` (character.rs lines 45-47): exact, case
sensitive match on the machine key. -/
def get_character_by_id (input : String) : Option CharacterId :=
  CHARACTERS.find? (fun c => c.id == input)

/-- Rust `str::eq_ignore_ascii_case`: equality after lowercasing ASCII
letters (Lean's `Char.toLower` lowercases exactly the ASCII range). -/
def eq_ignore_ascii_case (a b : String) : Bool :=
  a.toList.map Char.toLower == b.toList.map Char.toLower

/-- `SF6FrameDataError` (framedata.rs lines 13-17): the two tagged error
cases of the query facade. -/
inductive SF6FrameDataError where
  | UnknownCharacter
  | UnknownMove
deriving DecidableEq

/-- `CharacterFrameData` (framedata.rs lines 65-69). -/
structure CharacterFrameData where
  character_id : CharacterId
  moves : List Move
deriving DecidableEq

/-- `FrameData` (framedata.rs lines 31-35): the catalog. -/
structure FrameData where
  character_frame_data : List CharacterFrameData
deriving DecidableEq

/-- `FrameData::find_move_character` (framedata.rs lines 51-61): find the
entry with the exact id (CharacterId equality is by `id`, character.rs
lines 86-90), else UnknownCharacter; then the first move whose
`identifier` matches the query ASCII-case-insensitively, else
UnknownMove. -/
def find_move_character (fd : FrameData) (character_id : CharacterId)
    (move_query : String) : Except SF6FrameDataError Move :=
  match fd.character_frame_data.find? (fun c => c.character_id.id == character_id.id) with
  | none => .error .UnknownCharacter
  | some character_frame_data =>
    match character_frame_data.moves.find?
        (fun m => eq_ignore_ascii_case m.identifier move_query) with
    | none => .error .UnknownMove
    | some move_found => .ok move_found

/-- `FrameData::find_move` (framedata.rs lines 41-47): resolve the
character query by regex, else UnknownCharacter; then delegate. -/
def find_move (fd : FrameData) (character_query : String)
    (move_query : String) : Except SF6FrameDataError Move :=
  match get_character_by_regex character_query with
  | none => .error .UnknownCharacter
  | some character => find_move_character fd character move_query

/-- A transport-level error of the HTTP client (network failure, timeout,
DNS failure, body-read failure). The library never inspects it beyond
propagating or unwrapping, so the message is its only content. -/
structure TransportErr where
  msg : String
deriving DecidableEq

/-- The parsed document: `Html::parse_document` of the external `scraper`
crate is total (it never fails), so the model carries the parsed node
tree directly. -/
abbrev Html := Node

/-- The outcome of one HTTP GET, modelling the external `reqwest` crate:
`reqwest::get` returns an error only on a network-level failure; any
received response — whatever its status code — is `Ok`, and reading its
body with `text()` can still fail mid-stream. -/
inductive HttpEvent where
  | netFailure (e : TransportErr)
  | response (status : Nat) (body : Except TransportErr Html)

/-- `request_data_page` (framedata.rs lines 169-172): propagate the two
`?` failure points (the GET itself and `text()`); the body is then parsed
unconditionally — the source never consults the response status. The
function is a single-shot pipeline over one `HttpEvent`: no retry. -/
def request_data_page (ev : HttpEvent) : Except TransportErr Html :=
  match ev with
  | .netFailure e => .error e
  | .response _ body => body

/-- `select_move_identifiers` (framedata.rs lines 155-159): the
MOVE_IDENTIFIER_SELECTOR matches with `:empty` entries filtered out. -/
def select_move_identifiers (h : Html) : List Node :=
  (select MOVE_IDENTIFIER_SELECTOR h).filter (fun id => !is_empty id)

/-- `select_move_blocks` (framedata.rs lines 163-167): the
MOVE_BLOCK_SELECTOR matches with `:empty` entries filtered out. -/
def select_move_blocks (h : Html) : List Node :=
  (select MOVE_BLOCK_SELECTOR h).filter (fun id => !is_empty id)

/-- The result of running `load` as a task: either a value, or a panic —
`load` calls `.unwrap()` on the fetch result, so a transport failure
aborts the task rather than being returned. -/
inductive LoadOutcome where
  | ok (c : CharacterFrameData)
  | panicked (e : TransportErr)
deriving DecidableEq

/-- `load` (framedata.rs lines 141-151): fetch (unwrapping the result —
a transport error panics), select the two sequences, `zip` them
(truncating to the shorter), parse each pair discarding `None`s, and wrap
with the character's id. -/
def load (character_id : CharacterId) (ev : HttpEvent) : LoadOutcome :=
  match request_data_page ev with
  | .error e => .panicked e
  | .ok h =>
    let move_identifiers := select_move_identifiers h
    let move_blocks := select_move_blocks h
    let z := List.zip move_identifiers move_blocks
    let moves := z.filterMap (fun p => parse_move p.1 p.2)
    .ok { character_id := character_id, moves := moves }

/-- The fan-in loop of `load_all` (framedata.rs lines 129-135): each
joined task result is pushed on success and logged-and-skipped on
failure. -/
def collectResults : List LoadOutcome → List CharacterFrameData
  | [] => []
  | .ok c :: rest => c :: collectResults rest
  | .panicked _ :: rest => collectResults rest

/-- `load_all` (framedata.rs lines 121-137), as a function of the list of
per-character task outcomes in completion order (the `JoinSet` joins
tasks in nondeterministic completion order; a panicked `load` surfaces as
the `Err` case of `join_next`). -/
def load_all (outcomes : List LoadOutcome) : FrameData :=
  { character_frame_data := collectResults outcomes }

/-- Did the task outcome correspond to a failed (panicked) load? -/
def isPanicked : LoadOutcome → Bool
  | .panicked _ => true
  | .ok _ => false

/-- Following first-element-child links from a node down to an element
with no element child: the descent that `get_lowest_child` performs. -/
inductive DescendsToLeaf : Node → Node → Prop where
  | leaf (n : Node) : first_element_child n = none → DescendsToLeaf n n
  | step (n c m : Node) : first_element_child n = some c → DescendsToLeaf c m →
      DescendsToLeaf n m

/-- The last simple selector of a complex selector (the one tested
against the subject element). -/
def lastSimple : Sel → SimpleSel
  | .simple s => s
  | .child _ s => s
  | .adjacent _ s => s

/-! ### Concrete witness inputs -/

/-- A concrete move-name anchor: `<span>5LP</span>`. -/
def inputSpan : Node := Node.element "span" [] [Node.text "5LP"]

/-- A concrete data cell `<td>…</td>` holding one text value. -/
def mkTd (s : String) : Node := Node.element "td" [] [Node.text s]

/-- A concrete table-header cell containing the input-notation span, the
title div, and any further anchor elements. -/
def sampleTh (anchors : List Node) : Node :=
  Node.element "th" []
    ([Node.element "div" []
      [Node.element "p" [] [inputSpan],
       Node.element "div" [] [Node.text "Jab"]]] ++ anchors)

/-- A concrete move data table: one header row (input, name, anchors) and
one row of data cells. -/
def mkBlock (anchors : List Node) (cells : List String) : Node :=
  Node.element "table" [("class", "wikitable")]
    [Node.element "tbody" []
      [Node.element "tr" [] [sampleTh anchors],
       Node.element "tr" [] (cells.map mkTd)]]

/-- A candidate image anchor whose markup does not contain the
`/images/thumb… 2x` pattern (a generic icon). -/
def anchorA : Node :=
  Node.element "a" [("href", "/wiki/x")]
    [Node.element "img" [("src", "/images/icon.png")] []]

/-- A candidate image anchor whose `srcset` contains a
double-resolution `/images/thumb… 2x` entry. -/
def anchorB : Node :=
  Node.element "a" [("href", "/wiki/y")]
    [Node.element "img"
      [("srcset",
        "/images/thumb/a/ab/pic.png/50px-pic.png 1.5x, /images/thumb/a/ab/pic.png/100px-pic.png 2x")]
      []]

/-- 31 data-cell values `c0 … c30`. -/
def c1Cells : List String :=
  ["c0", "c1", "c2", "c3", "c4", "c5", "c6", "c7", "c8", "c9", "c10",
   "c11", "c12", "c13", "c14", "c15", "c16", "c17", "c18", "c19", "c20",
   "c21", "c22", "c23", "c24", "c25", "c26", "c27", "c28", "c29", "c30"]

/-- A move block with exactly 31 data cells. -/
def c1Block : Node := mkBlock [] c1Cells

/-- A parsed document with one nonempty move-name anchor and no
wikitable at all. -/
def sampleDoc : Node :=
  Node.element "html" []
    [Node.element "div" []
      [Node.element "div" []
        [Node.element "section" [("class", "section-collapsible")]
          [Node.element "h5" [] [Node.element "span" [] [Node.text "5LP"]]]]]]

/-- A parsed document with one nonempty move-name anchor whose header is
immediately followed by a wikitable. -/
def sampleDoc2 : Node :=
  Node.element "html" []
    [Node.element "div" []
      [Node.element "div" []
        [Node.element "section" [("class", "section-collapsible")]
          [Node.element "h5" [] [Node.element "span" [] [Node.text "5LP"]],
           Node.element "table" [("class", "wikitable")]
             [Node.element "tbody" [] [Node.text "body"]]]]]]

/-- A concrete `Move` with identifier `5LP` (all statistics default). -/
def sampleMove : Move :=
  { identifier := "5LP", input := "5LP", name := "Jab",
    image_link := DEFAULT_IMAGE, damage := "300", chip_damage := "-",
    damage_scaling := "-", guard := "-", cancel := "-",
    hitconfirm_window := "-", startup := "-", active := "-",
    recovery := "-", total := "-", hitstun := "-", blockstun := "-",
    drive_damage_block := "-", drive_damage_hit := "-", drive_gain := "-",
    super_gain_hit := "-", super_gain_block := "-",
    projectile_speed := "-", invuln := "-", armor := "-", airborne := "-",
    juggle_start := "-", juggle_increase := "-", juggle_limit := "-",
    perfect_parry_advantage := "-", after_dr_hit := "-",
    after_dr_block := "-", dr_cancel_hit := "-", dr_cancel_block := "-",
    punish_advantage := "-", hit_advantage := "-", block_advantage := "-",
    notes := "-" }

/-- A concrete catalog holding Ryu's data with the one sample move. -/
def fdRyu : FrameData :=
  { character_frame_data := [{ character_id := RYU, moves := [sampleMove] }] }

/-- Concrete task outcomes: two successes around one failure. -/
def outcomesSample : List LoadOutcome :=
  [.ok { character_id := RYU, moves := [] },
   .panicked { msg := "timeout" },
   .ok { character_id := KEN, moves := [] }]

/-! ### Selector evaluation lemmas -/

theorem matchPath_false_of_last (sel : Sel) (f : Frame) (fs : List Frame)
    (h : simpleMatches (lastSimple sel) f.1 = false) :
    matchPath sel (f :: fs) = false := by
  obtain ⟨n, prevs⟩ := f
  cases sel <;> simp_all [matchPath, lastSimple]

theorem simpleMatches_tag_false (ss : SimpleSel) (t : String) (n : Node)
    (h1 : ss.tag = some t) (h2 : (tagOf n == t) = false) :
    simpleMatches ss n = false := by
  simp [simpleMatches, h1, h2]

/-- A selector whose subject test requires a tag other than `td` selects
nothing in a list of `td` cells. -/
theorem selNodes_mkTd_nil (sel : Sel) (t : String)
    (h1 : (lastSimple sel).tag = some t) (h2 : ("td" == t) = false)
    (cells : List String) :
    ∀ (frames : List Frame) (prevs : List Node),
      selNodes sel frames prevs (cells.map mkTd) = [] := by
  induction cells with
  | nil => intro frames prevs; simp [selNodes]
  | cons c rest ih =>
    intro frames prevs
    have hm : matchPath sel ((mkTd c, prevs) :: frames) = false :=
      matchPath_false_of_last _ _ _
        (simpleMatches_tag_false _ _ _ h1 (by simpa [mkTd, tagOf] using h2))
    simp only [mkTd] at hm
    simp [selNodes, selNode, mkTd, isElem, hm, ih]

/-- In a list of `td` cells whose parent frame is a `tr`, the
`tr > td` selector selects exactly the cells, in order. -/
theorem selNodes_dr_tds (cells : List String) (trN : Node) (trP : List Node)
    (fs : List Frame) (h : tagOf trN = "tr") :
    ∀ prevs : List Node,
      selNodes DATA_ROW_SELECTOR ((trN, trP) :: fs) prevs (cells.map mkTd)
        = cells.map mkTd := by
  induction cells with
  | nil => intro prevs; simp [selNodes]
  | cons c rest ih =>
    intro prevs
    have htr : simpleMatches ⟨some "tr", []⟩ trN = true := by
      simp [simpleMatches, h]
    have htd0 : simpleMatches ⟨some "td", []⟩ (Node.element "td" [] [Node.text c]) = true := by
      simp [simpleMatches, tagOf]
    have hmp : matchPath DATA_ROW_SELECTOR
        ((Node.element "td" [] [Node.text c], prevs) :: (trN, trP) :: fs) = true := by
      simp [DATA_ROW_SELECTOR, tagSel, matchPath, htd0, htr]
    simp [selNodes, selNode, mkTd, isElem, hmp, ih]

theorem select_input_mkBlock (cells : List String) :
    select INPUT_SELECTOR (mkBlock [] cells) = [inputSpan] := by
  simp [select, mkBlock, sampleTh, childrenOf, selNodes, selNode,
    matchPath, simpleMatches, tagOf, tagSel, INPUT_SELECTOR, inputSpan,
    isElem, classList, attrsOf]
  exact selNodes_mkTd_nil INPUT_SELECTOR "span" rfl rfl cells _ _

theorem select_name_mkBlock (cells : List String) :
    select NAME_SELECTOR (mkBlock [] cells)
      = [Node.element "div" [] [Node.text "Jab"]] := by
  simp [select, mkBlock, sampleTh, childrenOf, selNodes, selNode,
    matchPath, simpleMatches, tagOf, tagSel, NAME_SELECTOR, inputSpan,
    isElem, classList, attrsOf]
  exact selNodes_mkTd_nil NAME_SELECTOR "div" rfl rfl cells _ _

theorem select_hitbox_mkBlock (cells : List String) :
    select HITBOX_IMAGE_ELEMENT_SELECTOR (mkBlock [] cells) = [] := by
  simp [select, mkBlock, sampleTh, childrenOf, selNodes, selNode,
    matchPath, simpleMatches, tagOf, tagSel, HITBOX_IMAGE_ELEMENT_SELECTOR,
    inputSpan, isElem, classList, attrsOf]
  exact selNodes_mkTd_nil HITBOX_IMAGE_ELEMENT_SELECTOR "a" rfl rfl cells _ _

theorem select_dr_mkBlock (cells : List String) :
    select DATA_ROW_SELECTOR (mkBlock [] cells) = cells.map mkTd := by
  simp [select, mkBlock, sampleTh, childrenOf, selNodes, selNode,
    matchPath, simpleMatches, tagOf, tagSel, DATA_ROW_SELECTOR, inputSpan,
    isElem, classList, attrsOf]
  refine selNodes_dr_tds cells _ _ _ ?_ _
  rfl

theorem dataCells_mkBlock (cells : List String) :
    dataCells (mkBlock [] cells) = cells := by
  have hpt : ∀ c : String, inner_html (get_lowest_child (mkTd c)) = c := by
    intro c
    simp [mkTd, get_lowest_child, glcList, inner_html, childrenOf,
      serializeNode, serializeNodes, String.append_empty]
  rw [dataCells, select_dr_mkBlock, List.map_map, List.map_map]
  calc cells.map (fun c => inner_html (get_lowest_child (mkTd c)))
      = cells.map id := List.map_congr_left (fun c _ => hpt c)
    _ = cells := List.map_id cells

/-- On a well-formed block, the main crate's `parse_move` assigns the
collected cells strictly positionally, defaulting to `-`. -/
theorem parse_move_mkBlock (cells : List String) :
    parse_move inputSpan (mkBlock [] cells)
      = some
        { identifier := "5LP", input := "5LP", name := "Jab",
          image_link := DEFAULT_IMAGE,
          damage := (cells.get? 0).getD "-",
          chip_damage := (cells.get? 1).getD "-",
          damage_scaling := (cells.get? 2).getD "-",
          guard := (cells.get? 3).getD "-",
          cancel := (cells.get? 4).getD "-",
          hitconfirm_window := (cells.get? 5).getD "-",
          startup := (cells.get? 6).getD "-",
          active := (cells.get? 7).getD "-",
          recovery := (cells.get? 8).getD "-",
          total := (cells.get? 9).getD "-",
          hitstun := (cells.get? 10).getD "-",
          blockstun := (cells.get? 11).getD "-",
          drive_damage_block := (cells.get? 12).getD "-",
          drive_damage_hit := (cells.get? 13).getD "-",
          drive_gain := (cells.get? 14).getD "-",
          super_gain_hit := (cells.get? 15).getD "-",
          super_gain_block := (cells.get? 16).getD "-",
          projectile_speed := (cells.get? 17).getD "-",
          invuln := (cells.get? 18).getD "-",
          armor := (cells.get? 19).getD "-",
          airborne := (cells.get? 20).getD "-",
          juggle_start := (cells.get? 21).getD "-",
          juggle_increase := (cells.get? 22).getD "-",
          juggle_limit := (cells.get? 23).getD "-",
          perfect_parry_advantage := (cells.get? 24).getD "-",
          after_dr_hit := (cells.get? 25).getD "-",
          after_dr_block := (cells.get? 26).getD "-",
          dr_cancel_hit := (cells.get? 27).getD "-",
          dr_cancel_block := (cells.get? 28).getD "-",
          punish_advantage := (cells.get? 29).getD "-",
          hit_advantage := (cells.get? 30).getD "-",
          block_advantage := (cells.get? 31).getD "-",
          notes := (cells.get? 32).getD "-" } := by
  rw [parse_move, select_input_mkBlock, select_name_mkBlock,
    select_hitbox_mkBlock, dataCells_mkBlock]
  simp [inner_html, childrenOf, inputSpan, serializeNodes, serializeNode]

/-- On the same block, the second crate's `parse_move` assigns cells
0-29 positionally but takes cells 40, 41, 42 for the last three fields
(the `nth(10)` skip). -/
theorem loader_parse_move_mkBlock (cells : List String) :
    loader.parse_move inputSpan (mkBlock [] cells)
      = some
        { identifier := "5LP", input := "5LP", name := "Jab",
          image_link := DEFAULT_IMAGE,
          damage := (cells.get? 0).getD "-",
          chip_damage := (cells.get? 1).getD "-",
          damage_scaling := (cells.get? 2).getD "-",
          guard := (cells.get? 3).getD "-",
          cancel := (cells.get? 4).getD "-",
          hitconfirm_window := (cells.get? 5).getD "-",
          startup := (cells.get? 6).getD "-",
          active := (cells.get? 7).getD "-",
          recovery := (cells.get? 8).getD "-",
          total := (cells.get? 9).getD "-",
          hitstun := (cells.get? 10).getD "-",
          blockstun := (cells.get? 11).getD "-",
          drive_damage_block := (cells.get? 12).getD "-",
          drive_damage_hit := (cells.get? 13).getD "-",
          drive_gain := (cells.get? 14).getD "-",
          super_gain_hit := (cells.get? 15).getD "-",
          super_gain_block := (cells.get? 16).getD "-",
          projectile_speed := (cells.get? 17).getD "-",
          invuln := (cells.get? 18).getD "-",
          armor := (cells.get? 19).getD "-",
          airborne := (cells.get? 20).getD "-",
          juggle_start := (cells.get? 21).getD "-",
          juggle_increase := (cells.get? 22).getD "-",
          juggle_limit := (cells.get? 23).getD "-",
          perfect_parry_advantage := (cells.get? 24).getD "-",
          after_dr_hit := (cells.get? 25).getD "-",
          after_dr_block := (cells.get? 26).getD "-",
          dr_cancel_hit := (cells.get? 27).getD "-",
          dr_cancel_block := (cells.get? 28).getD "-",
          punish_advantage := (cells.get? 29).getD "-",
          hit_advantage := (cells.get? 40).getD "-",
          block_advantage := (cells.get? 41).getD "-",
          notes := (cells.get? 42).getD "-" } := by
  rw [loader.parse_move, select_input_mkBlock, select_name_mkBlock,
    select_hitbox_mkBlock, dataCells_mkBlock]
  simp [inner_html, childrenOf, inputSpan, serializeNodes, serializeNode]

/-! ### `get_lowest_child` lemmas -/

theorem glcList_eq (self : Node) (cs : List Node) :
    glcList self cs
      = match cs.find? isElem with
        | none => self
        | some c => get_lowest_child c := by
  induction cs with
  | nil => simp [glcList, List.find?]
  | cons n rest ih =>
    cases n with
    | text s => simpa [glcList, List.find?_cons_of_neg, isElem] using ih
    | element t a cs2 => simp [glcList, List.find?_cons_of_pos, isElem]

/-- The source-shaped unfolding of `get_lowest_child`: descend into the
first element child when there is one. -/
theorem get_lowest_child_eq (n : Node) :
    get_lowest_child n
      = match first_element_child n with
        | none => n
        | some c => get_lowest_child c := by
  cases n with
  | text s => simp [get_lowest_child, first_element_child, childrenOf, List.find?]
  | element t a cs =>
    rw [get_lowest_child, glcList_eq]
    simp [first_element_child, childrenOf]

theorem sizeOf_lt_of_fec {n c : Node} (h : first_element_child n = some c) :
    sizeOf c < sizeOf n := by
  cases n with
  | text s => simp [first_element_child, childrenOf, List.find?] at h
  | element t a cs =>
    have hmem : c ∈ cs :=
      List.mem_of_find?_eq_some (p := isElem) (by simpa [first_element_child, childrenOf] using h)
    have h1 : sizeOf c < sizeOf cs := List.sizeOf_lt_of_mem hmem
    have h2 : sizeOf (Node.element t a cs) = 1 + sizeOf t + sizeOf a + sizeOf cs := by
      simp
    omega

theorem glc_is_leaf (n : Node) :
    first_element_child (get_lowest_child n) = none := by
  have H : ∀ k, ∀ m : Node, sizeOf m < k →
      first_element_child (get_lowest_child m) = none := by
    intro k
    induction k with
    | zero => intro m hm; exact absurd hm (Nat.not_lt_zero _)
    | succ k ih =>
      intro m hm
      rw [get_lowest_child_eq]
      cases hf : first_element_child m with
      | none => exact hf
      | some c =>
        exact ih c (Nat.lt_of_lt_of_le (sizeOf_lt_of_fec hf) (Nat.lt_succ_iff.mp hm))
  exact H (sizeOf n + 1) n (Nat.lt_succ_self _)

theorem glc_descends (n : Node) : DescendsToLeaf n (get_lowest_child n) := by
  have H : ∀ k, ∀ m : Node, sizeOf m < k → DescendsToLeaf m (get_lowest_child m) := by
    intro k
    induction k with
    | zero => intro m hm; exact absurd hm (Nat.not_lt_zero _)
    | succ k ih =>
      intro m hm
      rw [get_lowest_child_eq]
      cases hf : first_element_child m with
      | none => exact DescendsToLeaf.leaf m hf
      | some c =>
        exact DescendsToLeaf.step m c _ hf
          (ih c (Nat.lt_of_lt_of_le (sizeOf_lt_of_fec hf) (Nat.lt_succ_iff.mp hm)))
  exact H (sizeOf n + 1) n (Nat.lt_succ_self _)

theorem glc_unique {n m : Node} (h : DescendsToLeaf n m) :
    m = get_lowest_child n := by
  induction h with
  | leaf n hf => rw [get_lowest_child_eq, hf]
  | step n c m hf hd ih => rw [get_lowest_child_eq, hf]; exact ih

/-! ### Claim theorems -/

/-- **C1.** The claim says both `parse_move` implementations assign the
collected data cells strictly positionally (Nth cell to Nth field,
placeholder `-` past the end). The main crate's version does; the second
crate's version skips ten cells before `hit_advantage` (`nth(10)`,
loader.rs line 95). On a block whose table holds 31 data cells
`c0 … c30`, the main crate puts `c30` into the 31st field
(`hit_advantage`) while the second crate yields `-` there (cell 40 does
not exist), contradicting the positional claim. -/
theorem c1_positional_nth_skip_eval :
    dataCells c1Block = c1Cells
    ∧ (parse_move inputSpan c1Block).map Move.hit_advantage = some "c30"
    ∧ (loader.parse_move inputSpan c1Block).map Move.hit_advantage = some "-" := by
  refine ⟨dataCells_mkBlock c1Cells, ?_, ?_⟩
  · show (parse_move inputSpan (mkBlock [] c1Cells)).map Move.hit_advantage = some "c30"
    rw [parse_move_mkBlock]
    rfl
  · show (loader.parse_move inputSpan (mkBlock [] c1Cells)).map Move.hit_advantage = some "-"
    rw [loader_parse_move_mkBlock]
    rfl

/-- **C10.** `get_lowest_child` is total on the (finite) element tree —
it is defined by recursion on the tree with no defensive depth bound —
and it returns the unique node reached from `n` by following
first-element-child links until a node with no element child is reached:
it descends (existence), the result has no element child (leafness), any
node reached that way is the result (uniqueness), and it satisfies the
source-shaped recursion on `first_element_child`. -/
theorem c10_get_lowest_child_reaches_unique_leaf :
    ∀ n : Node,
      DescendsToLeaf n (get_lowest_child n)
      ∧ first_element_child (get_lowest_child n) = none
      ∧ (∀ m : Node, DescendsToLeaf n m → m = get_lowest_child n)
      ∧ get_lowest_child n
          = (match first_element_child n with
             | none => n
             | some c => get_lowest_child c) :=
  fun n => ⟨glc_descends n, glc_is_leaf n, fun _ h => glc_unique h,
    get_lowest_child_eq n⟩

/-- Witness for C10 at a concrete two-level tree: the descent from
`<td><p>x</p></td>` ends at the inner `<p>` element, and uniqueness
applied to a concrete derivation pins the result. -/
theorem c10_witness :
    first_element_child
        (get_lowest_child (Node.element "td" [] [Node.element "p" [] [Node.text "x"]]))
      = none
    ∧ Node.element "p" [] [Node.text "x"]
        = get_lowest_child (Node.element "td" [] [Node.element "p" [] [Node.text "x"]]) := by
  have h := c10_get_lowest_child_reaches_unique_leaf
    (Node.element "td" [] [Node.element "p" [] [Node.text "x"]])
  refine ⟨h.2.1, h.2.2.1 _ ?_⟩
  exact DescendsToLeaf.step _ _ _ (by rfl)
    (DescendsToLeaf.leaf _ (by rfl))

/-- **C2 (counterexample).** The claim says a single-character `load`
either returns a `CharacterFrameData` or returns a TransportError to the
caller, never a panic. But `load` unwraps the fetch result: on a network
failure the task panics (modelled by `LoadOutcome.panicked`) instead of
returning the error. -/
theorem c2_counterexample :
    load RYU (.netFailure { msg := "connection refused" })
      = .panicked { msg := "connection refused" } := rfl

/-- **C2 (amended).** `load` either returns a `CharacterFrameData`
carrying the character's id, or — exactly when the page fetch fails —
panics with the unwrapped transport error; the error is never returned
as a value. -/
theorem c2_load_ok_or_panics :
    ∀ (cid : CharacterId) (ev : HttpEvent),
      (∃ e, request_data_page ev = .error e ∧ load cid ev = .panicked e)
      ∨ (∃ h' moves, request_data_page ev = .ok h'
          ∧ load cid ev = .ok { character_id := cid, moves := moves }) := by
  intro cid ev
  cases ev with
  | netFailure e => exact Or.inl ⟨e, rfl, rfl⟩
  | response s body =>
    cases body with
    | error e => exact Or.inl ⟨e, rfl, rfl⟩
    | ok h' => exact Or.inr ⟨h', _, rfl, rfl⟩

/-- **C3 (counterexample).** The claim says a non-2xx HTTP status is
reported as a TransportError. But `request_data_page` never consults the
status: a 404 response with a readable body is parsed as a page. -/
theorem c3_counterexample :
    request_data_page (.response 404 (.ok sampleDoc)) = .ok sampleDoc := rfl

/-- **C3 (amended).** The fetch propagates a network-level failure and a
body-read failure as errors, with no retry (it consumes its single
`HttpEvent`); but a response that arrives with a readable body is parsed
as a page whatever its status code. -/
theorem c3_fetch_error_cases :
    ∀ (e : TransportErr) (s : Nat) (h' : Html),
      request_data_page (.netFailure e) = .error e
      ∧ request_data_page (.response s (.error e)) = .error e
      ∧ request_data_page (.response s (.ok h')) = .ok h' :=
  fun _ _ _ => ⟨rfl, rfl, rfl⟩

theorem collectResults_length :
    ∀ l : List LoadOutcome,
      (collectResults l).length + l.countP isPanicked = l.length := by
  intro l
  induction l with
  | nil => simp [collectResults]
  | cons o rest ih =>
    cases o with
    | ok c => simp [collectResults, List.countP_cons, isPanicked]; omega
    | panicked e => simp [collectResults, List.countP_cons, isPanicked]; omega

theorem collectResults_mem :
    ∀ (l : List LoadOutcome) (c : CharacterFrameData),
      LoadOutcome.ok c ∈ l ↔ c ∈ collectResults l := by
  intro l c
  induction l with
  | nil => simp [collectResults]
  | cons o rest ih =>
    cases o with
    | ok d => simp [collectResults, ih]
    | panicked e => simp [collectResults, ih]

/-- **C4.** When exactly one of the `n` per-character loads fails and
the rest succeed, `load_all` still processes every outcome: the catalog
has exactly `n - 1` entries, every successful character's data is in it,
and it contains nothing else. -/
theorem c4_one_failure_keeps_others :
    ∀ (outcomes : List LoadOutcome) (n : Nat),
      outcomes.length = n →
      outcomes.countP isPanicked = 1 →
      (load_all outcomes).character_frame_data.length = n - 1
      ∧ (∀ c, LoadOutcome.ok c ∈ outcomes →
          c ∈ (load_all outcomes).character_frame_data)
      ∧ (∀ c, c ∈ (load_all outcomes).character_frame_data →
          LoadOutcome.ok c ∈ outcomes) := by
  intro outcomes n hlen hcount
  have hl := collectResults_length outcomes
  refine ⟨?_, ?_, ?_⟩
  · simp only [load_all]
    omega
  · intro c hc
    exact (collectResults_mem outcomes c).mp hc
  · intro c hc
    exact (collectResults_mem outcomes c).mpr hc

/-- Witness for C4: three tasks, the middle one failed; the catalog has
the two surviving entries and Ryu's is among them. -/
theorem c4_witness :
    (load_all outcomesSample).character_frame_data.length = 3 - 1
    ∧ { character_id := RYU, moves := [] }
        ∈ (load_all outcomesSample).character_frame_data := by
  have h := c4_one_failure_keeps_others outcomesSample 3 rfl (by rfl)
  exact ⟨h.1, h.2.1 _ (by simp [outcomesSample])⟩

/-- **C5.** `find_move_character` returns the tagged `UnknownCharacter`
when no catalog entry has the queried id (however the id got absent,
e.g. a failed load), returns the tagged `UnknownMove` when the entry
exists but no move identifier matches the query ASCII-case-insensitively,
and the two tags are distinguishable. -/
theorem c5_find_move_character_errors :
    ∀ (fd : FrameData) (cid : CharacterId) (q : String),
      ((∀ cfd, cfd ∈ fd.character_frame_data →
          (cfd.character_id.id == cid.id) = false) →
        find_move_character fd cid q = .error .UnknownCharacter)
      ∧ (∀ cfd, cfd ∈ fd.character_frame_data →
          cfd.character_id.id = cid.id →
          (∀ c', c' ∈ fd.character_frame_data →
            c'.character_id.id = cid.id → c' = cfd) →
          (∀ m, m ∈ cfd.moves → eq_ignore_ascii_case m.identifier q = false) →
          find_move_character fd cid q = .error .UnknownMove)
      ∧ ((SF6FrameDataError.UnknownCharacter == SF6FrameDataError.UnknownMove)
          = false) := by
  intro fd cid q
  refine ⟨?_, ?_, rfl⟩
  · intro h
    have hf : fd.character_frame_data.find?
        (fun c => c.character_id.id == cid.id) = none :=
      List.find?_eq_none.mpr (fun x hx => by simp [h x hx])
    simp [find_move_character, hf]
  · intro cfd hmem hid huniq hmoves
    cases hf : fd.character_frame_data.find?
        (fun c => c.character_id.id == cid.id) with
    | none =>
      exact absurd (by simp [hid] : (fun c : CharacterFrameData =>
        c.character_id.id == cid.id) cfd = true) (List.find?_eq_none.mp hf cfd hmem)
    | some d =>
      have hd : d = cfd :=
        huniq d (List.mem_of_find?_eq_some hf)
          (by simpa using List.find?_some hf)
      have hm : cfd.moves.find?
          (fun m => eq_ignore_ascii_case m.identifier q) = none :=
        List.find?_eq_none.mpr (fun m hmm => by simp [hmoves m hmm])
      simp [find_move_character, hf, hd, hm]

/-- Witness for C5: an empty catalog answers `UnknownCharacter` for Ryu
even though Ryu is in the roster; a catalog whose Ryu entry has only the
`5LP` move answers `UnknownMove` for `214H`. -/
theorem c5_witness :
    find_move_character { character_frame_data := [] } RYU "5lp"
      = .error .UnknownCharacter
    ∧ find_move_character fdRyu RYU "214H" = .error .UnknownMove := by
  refine ⟨(c5_find_move_character_errors _ RYU "5lp").1 (by simp), ?_⟩
  refine (c5_find_move_character_errors fdRyu RYU "214H").2.1
    { character_id := RYU, moves := [sampleMove] }
    (by simp [fdRyu]) rfl (fun c' hc' _ => by simpa [fdRyu] using hc') ?_
  intro m hm
  have hms : m = sampleMove := by simpa [fdRyu] using hm
  rw [hms]
  rfl

theorem zip_get?_eq {α β : Type _} :
    ∀ (l1 : List α) (l2 : List β) (k : Nat) (a : α) (b : β),
      (l1.zip l2).get? k = some (a, b) →
      l1.get? k = some a ∧ l2.get? k = some b := by
  intro l1
  induction l1 with
  | nil => intro l2 k a b h; simp at h
  | cons x xs ih =>
    intro l2 k a b h
    cases l2 with
    | nil => simp at h
    | cons y ys =>
      cases k with
      | zero =>
        rw [List.zip_cons_cons] at h
        simp at h
        simp [h.1, h.2]
      | succ k =>
        rw [List.zip_cons_cons] at h
        simp only [List.get?] at h ⊢
        exact ih ys k a b h

/-- **C6 (counterexample).** The claim says the selection stage produces
two equal-length sequences for every parsed document. On a document with
one nonempty name anchor and no wikitable, the two selections have
lengths 1 and 0. -/
theorem c6_counterexample :
    (select_move_identifiers sampleDoc).length = 1
    ∧ (select_move_blocks sampleDoc).length = 0 := by
  exact ⟨rfl, rfl⟩

/-- **C6 (amended).** The selection stage produces two ordered sequences
— name anchors and data tables — with `:empty` entries discarded from
*both* sequences (not only the anchors); the sequences are not
guaranteed equal length, and the loader pairs them positionally by
`zip`, truncating to the shorter: entry `k` of the zip is exactly
(anchor `k`, table `k`). -/
theorem c6_selection_filtered_zipped :
    ∀ h' : Html,
      (∀ e, e ∈ select_move_identifiers h' → is_empty e = false)
      ∧ (∀ e, e ∈ select_move_blocks h' → is_empty e = false)
      ∧ (List.zip (select_move_identifiers h') (select_move_blocks h')).length
          = min (select_move_identifiers h').length (select_move_blocks h').length
      ∧ (∀ k i b,
          (List.zip (select_move_identifiers h') (select_move_blocks h')).get? k
            = some (i, b) →
          (select_move_identifiers h').get? k = some i
          ∧ (select_move_blocks h').get? k = some b) := by
  intro h'
  refine ⟨?_, ?_, ?_, ?_⟩
  · intro e he
    rw [select_move_identifiers] at he
    simpa using List.of_mem_filter he
  · intro e he
    rw [select_move_blocks] at he
    simpa using List.of_mem_filter he
  · exact List.length_zip _ _
  · intro k i b h
    exact zip_get?_eq _ _ k i b h

/-- Witness for C6 at a document holding one anchor-table pair: the
selected anchor is nonempty, and the zip pairs it with the table at
index 0. -/
theorem c6_witness :
    is_empty (Node.element "span" [] [Node.text "5LP"]) = false
    ∧ (select_move_identifiers sampleDoc2).get? 0
        = some (Node.element "span" [] [Node.text "5LP"])
    ∧ (select_move_blocks sampleDoc2).get? 0
        = some (Node.element "table" [("class", "wikitable")]
            [Node.element "tbody" [] [Node.text "body"]]) := by
  have h := c6_selection_filtered_zipped sampleDoc2
  have h4 := h.2.2.2 0 (Node.element "span" [] [Node.text "5LP"])
    (Node.element "table" [("class", "wikitable")]
      [Node.element "tbody" [] [Node.text "body"]]) (by rfl)
  refine ⟨?_, h4.1, h4.2⟩
  refine h.1 _ ?_
  have h1 : select_move_identifiers sampleDoc2
      = [Node.element "span" [] [Node.text "5LP"]] := rfl
  rw [h1]
  exact List.mem_singleton_self _

/-- **C8.** `find_move` is invariant under the ASCII letter-case of the
move query: queries that agree up to ASCII case give identical results,
because move identifiers are compared with `eq_ignore_ascii_case`. -/
theorem c8_find_move_case_insensitive :
    ∀ (fd : FrameData) (cq q1 q2 : String),
      eq_ignore_ascii_case q1 q2 = true →
      find_move fd cq q1 = find_move fd cq q2 := by
  intro fd cq q1 q2 h
  have hq : List.map Char.toLower q1.data = List.map Char.toLower q2.data := by
    simpa [eq_ignore_ascii_case, String.toList] using h
  have hpred : (fun m : Move => eq_ignore_ascii_case m.identifier q1)
      = (fun m : Move => eq_ignore_ascii_case m.identifier q2) :=
    funext fun m => by simp [eq_ignore_ascii_case, String.toList, hq]
  unfold find_move
  cases get_character_by_regex cq with
  | none => rfl
  | some c =>
    unfold find_move_character
    rw [hpred]

/-- Witness for C8: the `5LP` and `5lp` queries return the identical
result on the sample catalog. -/
theorem c8_witness :
    find_move fdRyu "ryu" "5LP" = find_move fdRyu "ryu" "5lp" :=
  c8_find_move_case_insensitive fdRyu "ryu" "5LP" "5lp" (by rfl)

theorem parse_move_image_link (idn block : Node) (m : Move)
    (h : parse_move idn block = some m) :
    m.image_link
      = (((((select HITBOX_IMAGE_ELEMENT_SELECTOR block).map
            (fun e => html e)).get? 1).bind hitbox_image_matcher).or
          ((((select HITBOX_IMAGE_ELEMENT_SELECTOR block).map
            (fun e => html e)).get? 0).bind hitbox_image_matcher)).getD
          DEFAULT_IMAGE := by
  rw [parse_move] at h
  cases hi : (select INPUT_SELECTOR block).head? with
  | none => rw [hi] at h; simp at h
  | some ei =>
    rw [hi] at h
    cases hn : (select NAME_SELECTOR block).head? with
    | none => rw [hn] at h; simp at h
    | some en =>
      rw [hn] at h
      simp only [Option.map_some'] at h
      injection h with h
      rw [← h]

/-- **C7.** The produced `image_link` prefers the second image-anchor
candidate's extracted URL whenever the second matches the hitbox-image
pattern, falls back to the first candidate's URL when only the first
matches, is exactly the hardcoded default placeholder when neither
matches, and every matcher output is the extracted path prefixed with
the source site's base URL. -/
theorem c7_image_link_preference :
    ∀ (idn block : Node) (m : Move),
      parse_move idn block = some m →
      (∀ v, (((select HITBOX_IMAGE_ELEMENT_SELECTOR block).map
            (fun e => html e)).get? 1).bind hitbox_image_matcher = some v →
          m.image_link = v)
      ∧ ((((select HITBOX_IMAGE_ELEMENT_SELECTOR block).map
            (fun e => html e)).get? 1).bind hitbox_image_matcher = none →
          ∀ u, (((select HITBOX_IMAGE_ELEMENT_SELECTOR block).map
            (fun e => html e)).get? 0).bind hitbox_image_matcher = some u →
          m.image_link = u)
      ∧ ((((select HITBOX_IMAGE_ELEMENT_SELECTOR block).map
            (fun e => html e)).get? 0).bind hitbox_image_matcher = none →
          (((select HITBOX_IMAGE_ELEMENT_SELECTOR block).map
            (fun e => html e)).get? 1).bind hitbox_image_matcher = none →
          m.image_link = DEFAULT_IMAGE)
      ∧ (∀ s u, hitbox_image_matcher s = some u →
          ∃ p, u = "https://wiki.supercombo.gg/" ++ p) := by
  intro idn block m h
  have him := parse_move_image_link idn block m h
  refine ⟨?_, ?_, ?_, ?_⟩
  · intro v hv
    rw [him, hv]
    rfl
  · intro h1 u hu
    rw [him, h1, hu]
    rfl
  · intro h0 h1
    rw [him, h0, h1]
    rfl
  · intro s u hs
    rw [hitbox_image_matcher] at hs
    obtain ⟨cap, _, hc⟩ := Option.map_eq_some'.mp hs
    exact ⟨String.mk cap, hc.symm⟩

/-- Witness for C7: on a block whose first candidate anchor has no
hitbox-image match and whose second candidate does, `image_link` is the
second candidate's extracted URL, rewritten onto the site prefix. -/
theorem c7_witness :
    (parse_move inputSpan (mkBlock [anchorA, anchorB] [])).map Move.image_link
      = some "https://wiki.supercombo.gg//images/thumb/a/ab/pic.png/100px-pic.png" := by
  cases hp : parse_move inputSpan (mkBlock [anchorA, anchorB] []) with
  | none => exact absurd hp (by decide)
  | some m =>
    have := (c7_image_link_preference inputSpan (mkBlock [anchorA, anchorB] []) m hp).1
      "https://wiki.supercombo.gg//images/thumb/a/ab/pic.png/100px-pic.png" (by rfl)
    rw [Option.map_some', this]

/-- **C9.** The claim says pattern lookup accepts no partial or
substring matches because every roster pattern is matched anchored at
both ends. The wrapper `(?i)^{pattern}$` shows full anchoring is the
intent, but for the one roster pattern with a top-level alternation —
Akuma's `akuma|gouki` — the compiled `^akuma|gouki$` parses as
`(^akuma)|(gouki$)`, so the lookup accepts strict superstrings:
`akumaaa` (prefix match on the `^akuma` branch) and `mygouki` (suffix
match on the `gouki$` branch) both resolve to Akuma, where the claim
demands they resolve to nothing. The claim's own examples, whose
patterns have no top-level alternation, behave as stated. -/
theorem c9_anchoring_bug_eval :
    get_character_by_regex "akumaaa" = some AKUMA
    ∧ get_character_by_regex "mygouki" = some AKUMA
    ∧ get_character_by_regex "CHUNLI" = some CHUNLI
    ∧ get_character_by_regex "chun-li" = some CHUNLI
    ∧ get_character_by_regex "chunliii" = none := by
  refine ⟨by decide, by decide, by decide, by decide, by decide⟩

end SF6
